import Mathlib

/-!
Verification of the body-payload module (`src/body.rs`) of the isahc HTTP
client fork. The module defines `Body`, a tagged union over four backing
representations (Empty, Borrowed, Bytes/Owned, AsyncRead), with length,
reset, blocking read, asynchronous poll-read and text-decoding operations.

Modelling conventions:
- Bytes are `Nat` values below 256; buffers and slices are `List Nat`.
- `std::io::Cursor` is a structure with the underlying data and a `u64`
  position (a `Nat`; positions only grow by bytes read, so no overflow).
- The dispatching `match` statements in `Body::len`, `Body::reset` and
  `poll_read` in the source have NO arm for the `Inner::Borrowed` variant
  (they are non-exhaustive). This is modelled by an outer `Option`: a
  `none` result marks a call that falls through every arm of the source's
  `match`, i.e. a point where the source has no defined behaviour.
- An arbitrary external `AsyncRead` source is modelled as a script of poll
  outcomes (suspend, a chunk of bytes, or an I/O error); an exhausted
  script yields end-of-data, matching a well-behaved reader at EOF.
- `crate::task::Join`, the synchronous-execution bridge, is not part of
  this module's source; it is modelled from the spec as a fueled loop.
-/

set_option autoImplicit false

namespace Isahc

/-- A single byte, as stored in Rust byte slices and `Bytes` buffers. -/
abbrev Byte := Nat

/-- Model of `std::io::Cursor`: backing data plus a read position. -/
structure Cursor where
  data : List Byte
  pos : Nat
deriving DecidableEq, Repr

/-- Model of `Cursor::new`: position starts at 0. -/
def Cursor.new (d : List Byte) : Cursor := ⟨d, 0⟩

/-- Model of `Read::read` for a cursor over in-memory bytes: copy up to
`bufLen` bytes starting at `min pos (length data)` into the caller's
buffer and advance the position by the number of bytes copied. Returns
the bytes written and the updated cursor. -/
def Cursor.read (c : Cursor) (bufLen : Nat) : List Byte × Cursor :=
  let start := min c.pos c.data.length
  let out := (c.data.drop start).take bufLen
  (out, ⟨c.data, c.pos + out.length⟩)

/-- Model of `Cursor::set_position`. -/
def Cursor.setPosition (c : Cursor) (p : Nat) : Cursor := ⟨c.data, p⟩

/-- One scripted outcome of polling an external `AsyncRead` source. -/
inductive SourceStep where
  /-- The source is not ready; the caller must be resumed later. -/
  | pending
  /-- The source produces the given bytes (truncated to the buffer). -/
  | chunk (bytes : List Byte)
  /-- The source reports an I/O error. -/
  | fail
deriving DecidableEq, Repr

/-- Model of an arbitrary external asynchronous byte source: the sequence
of outcomes its `poll_read` will produce, in order. Once the script is
exhausted the source reports end-of-data (0 bytes) forever. -/
structure AsyncSource where
  script : List SourceStep
deriving DecidableEq, Repr

/-- Result of one `poll_read` call: `Poll<io::Result<usize>>`, with the
bytes written to the buffer made explicit. -/
inductive ReadPoll where
  /-- `Poll::Pending`. -/
  | pending
  /-- `Poll::Ready(Ok(n))` together with the `n` bytes written. -/
  | ok (bytes : List Byte)
  /-- `Poll::Ready(Err(_))`: an I/O error. -/
  | ioError
deriving DecidableEq, Repr

/-- Polling the modelled external source: consume the next scripted step. -/
def AsyncSource.poll (s : AsyncSource) (bufLen : Nat) : ReadPoll × AsyncSource :=
  match s.script with
  | [] => (.ok [], s)
  | .pending :: rest => (.pending, ⟨rest⟩)
  | .chunk bs :: rest => (.ok (bs.take bufLen), ⟨rest⟩)
  | .fail :: rest => (.ioError, ⟨rest⟩)

/-- The `Inner` enum of `src/body.rs`: all possible body implementations. -/
inductive Inner where
  /-- `Inner::Empty`: an empty body. -/
  | empty
  /-- `Inner::Borrowed(Cursor<&[u8]>)`: a cursor over borrowed bytes. -/
  | borrowed (cursor : Cursor)
  /-- `Inner::Bytes(Cursor<Bytes>)`: a body stored in memory. -/
  | bytes (cursor : Cursor)
  /-- `Inner::AsyncRead(reader, Option<u64>)`: an asynchronous reader with
  an optional declared length. -/
  | asyncRead (source : AsyncSource) (length : Option Nat)
deriving DecidableEq, Repr

/-- The `Body` struct: a newtype around `Inner`. -/
structure Body where
  inner : Inner
deriving DecidableEq, Repr

/-- Model of `Body::empty`. -/
def Body.empty : Body := ⟨.empty⟩

/-- Model of `Body::bytes`: an in-memory body with an owned buffer. -/
def Body.bytes (b : List Byte) : Body := ⟨.bytes (Cursor.new b)⟩

/-- Model of `Body::reader`: a streaming body with unknown length. -/
def Body.reader (source : AsyncSource) : Body := ⟨.asyncRead source none⟩

/-- Model of `Body::reader_sized`: a streaming body with declared length. -/
def Body.reader_sized (source : AsyncSource) (length : Nat) : Body :=
  ⟨.asyncRead source (some length)⟩

/-- Model of `impl From<Vec<u8>> for Body`: delegates to `Body::bytes`. -/
def Body.ofVec (b : List Byte) : Body := Body.bytes b

/-- Model of `impl From<&[u8]> for Body`: wraps the borrowed slice in a
cursor, producing the Borrowed variant (no copy). -/
def Body.ofByteSlice (b : List Byte) : Body := ⟨.borrowed (Cursor.new b)⟩

/-- Model of `impl From<Bytes> for Body`: delegates to `Body::bytes`. -/
def Body.ofBytesBuf (b : List Byte) : Body := Body.bytes b

/-- Model of `impl From<String> for Body`: `body.into_bytes().into()`, the
UTF-8 byte buffer of the string moved through `From<Vec<u8>>`. The
argument is the string's UTF-8 byte content. -/
def Body.ofString (s : List Byte) : Body := Body.ofVec s

/-- Model of `impl From<&str> for Body`: `body.as_bytes().into()`, the
borrowed UTF-8 bytes through `From<&[u8]>`. -/
def Body.ofStr (s : List Byte) : Body := Body.ofByteSlice s

/-- Model of `Body::len`. The source's `match` has arms only for `Empty`,
`Bytes` and `AsyncRead`; the outer `none` marks the missing `Borrowed`
arm (the `match` is non-exhaustive in the source). -/
def Body.len (b : Body) : Option (Option Nat) :=
  match b.inner with
  | .empty => some (some 0)
  | .bytes c => some (some c.data.length)
  | .asyncRead _ l => some l
  | .borrowed _ => none

/-- Model of `Body::is_empty`: `self.len() == Some(0)`. -/
def Body.is_empty (b : Body) : Option Bool :=
  (Body.len b).map (fun l => l == some 0)

/-- Model of `Body::reset`: true for `Empty`, reposition to 0 and true for
`Bytes`, false for `AsyncRead`. The outer `none` marks the missing
`Borrowed` arm of the source's `match`. -/
def Body.reset (b : Body) : Option (Bool × Body) :=
  match b.inner with
  | .empty => some (true, b)
  | .bytes c => some (true, ⟨.bytes (c.setPosition 0)⟩)
  | .asyncRead _ _ => some (false, b)
  | .borrowed _ => none

/-- Model of `impl AsyncRead for Body::poll_read`: `Empty` completes with 0
bytes, `Bytes` delegates to the cursor (always ready), `AsyncRead`
delegates to the wrapped source verbatim. The outer `none` marks the
missing `Borrowed` arm of the source's `match`. -/
def Body.poll_read (b : Body) (bufLen : Nat) : Option (ReadPoll × Body) :=
  match b.inner with
  | .empty => some (.ok [], b)
  | .bytes c =>
    let r := c.read bufLen
    some (.ok r.1, ⟨.bytes r.2⟩)
  | .asyncRead s l =>
    let r := s.poll bufLen
    some (r.1, ⟨.asyncRead r.2 l⟩)
  | .borrowed _ => none

/-- Modelled from the spec: `crate::task::Join`, the synchronous-execution
bridge, is not under `src/`. Per the spec it parks the calling thread and
repeatedly resumes the suspend/resume operation until it completes or
fails. Modelled as a fueled loop over `Body.poll_read`; `none` means the
fuel ran out (the operation stayed pending) or an undefined poll. -/
def Join.join (bufLen : Nat) : Nat → Body → Option (ReadPoll × Body)
  | 0, _ => none
  | fuel + 1, b =>
    match Body.poll_read b bufLen with
    | none => none
    | some (.pending, b') => Join.join bufLen fuel b'
    | some (.ok bs, b') => some (.ok bs, b')
    | some (.ioError, b') => some (.ioError, b')

/-- Model of `impl Read for Body`: `AsyncReadExt::read(self, buf).join()`,
the asynchronous read operation driven by the bridge. -/
def Body.read (b : Body) (bufLen fuel : Nat) : Option (ReadPoll × Body) :=
  Join.join bufLen fuel b

/-- Second definition for the refinement claim, following the spec's words
in §4.3: drive the asynchronous read contract to completion by resuming
the operation while it is pending, returning its completion or failure. -/
def driveAsyncRead (bufLen : Nat) : Nat → Body → Option (ReadPoll × Body)
  | 0, _ => none
  | fuel + 1, b =>
    match Body.poll_read b bufLen with
    | some (.pending, b') => driveAsyncRead bufLen fuel b'
    | some (.ok bs, b') => some (.ok bs, b')
    | some (.ioError, b') => some (.ioError, b')
    | none => none

/-- Outcome of draining a body to end-of-data (`read_to_end` semantics). -/
inductive DrainOut where
  /-- All bytes up to end-of-data. -/
  | ok (bytes : List Byte)
  /-- An I/O error surfaced by a read. -/
  | ioError
deriving DecidableEq, Repr

/-- Model of the read loop inside `Read::read_to_string`: repeatedly issue
blocking reads, accumulating bytes, until a read returns 0 bytes. -/
def Body.drain (bufLen pollFuel : Nat) : Nat → Body → List Byte → Option (DrainOut × Body)
  | 0, _, _ => none
  | fuel + 1, b, acc =>
    match Body.read b bufLen pollFuel with
    | none => none
    | some (.pending, _) => none
    | some (.ioError, b') => some (.ioError, b')
    | some (.ok [], b') => some (.ok acc, b')
    | some (.ok (x :: xs), b') => Body.drain bufLen pollFuel fuel b' (acc ++ x :: xs)

/-- Is `b` a UTF-8 continuation byte (0x80..0xBF)? -/
def utf8Cont (b : Byte) : Bool := 0x80 ≤ b && b < 0xC0

/-- Model of the UTF-8 validation and decoding performed by Rust's
`read_to_string` (via `str::from_utf8`): strict UTF-8, rejecting overlong
forms, surrogates and values above U+10FFFF. -/
def decodeUtf8 : List Byte → Option (List Char)
  | [] => some []
  | b :: rest =>
    if b < 0x80 then
      (decodeUtf8 rest).map (fun cs => Char.ofNat b :: cs)
    else if b < 0xC2 then none
    else if b < 0xE0 then
      match rest with
      | b1 :: rest' =>
        if utf8Cont b1 then
          (decodeUtf8 rest').map
            (fun cs => Char.ofNat ((b - 0xC0) * 0x40 + (b1 - 0x80)) :: cs)
        else none
      | [] => none
    else if b < 0xF0 then
      match rest with
      | b1 :: b2 :: rest' =>
        if utf8Cont b1 && utf8Cont b2 && (b != 0xE0 || 0xA0 ≤ b1) &&
            (b != 0xED || b1 < 0xA0) then
          (decodeUtf8 rest').map
            (fun cs =>
              Char.ofNat ((b - 0xE0) * 0x1000 + (b1 - 0x80) * 0x40 + (b2 - 0x80)) :: cs)
        else none
      | _ => none
    else if b < 0xF5 then
      match rest with
      | b1 :: b2 :: b3 :: rest' =>
        if utf8Cont b1 && utf8Cont b2 && utf8Cont b3 && (b != 0xF0 || 0x90 ≤ b1) &&
            (b != 0xF4 || b1 < 0x90) then
          (decodeUtf8 rest').map
            (fun cs =>
              Char.ofNat ((b - 0xF0) * 0x40000 + (b1 - 0x80) * 0x1000 +
                (b2 - 0x80) * 0x40 + (b3 - 0x80)) :: cs)
        else none
      | _ => none
    else none

/-- Result of `Body::text`: the decoded string, or one of the two error
classes of `read_to_string` (I/O failure vs invalid data). -/
inductive TextResult where
  /-- The decoded string. -/
  | ok (s : String)
  /-- An I/O error from the underlying read. -/
  | ioError
  /-- The drained bytes were not valid UTF-8 (`InvalidData`). -/
  | invalidUtf8
deriving DecidableEq, Repr

/-- Model of `Body::text`: `Read::read_to_string(self, &mut s)` — drain all
remaining bytes through the blocking read contract, then decode as UTF-8. -/
def Body.text (b : Body) (bufLen pollFuel fuel : Nat) : Option (TextResult × Body) :=
  match Body.drain bufLen pollFuel fuel b [] with
  | none => none
  | some (.ioError, b') => some (.ioError, b')
  | some (.ok bs, b') =>
    match decodeUtf8 bs with
    | some cs => some (.ok (String.mk cs), b')
    | none => some (.invalidUtf8, b')

/-- Model of `impl fmt::Debug for Body`: renders the known length in
parentheses, or a question mark when the length is unknown; computed from
`Body.len` alone, without touching body bytes. -/
def Body.debugFmt (b : Body) : Option String :=
  (Body.len b).map (fun l =>
    match l with
    | some n => "Body(" ++ toString n ++ ")"
    | none => "Body(?)")

/-- Does this body hold the Owned in-memory buffer variant (`Inner::Bytes`)? -/
def Body.isOwnedBytes (b : Body) : Bool :=
  match b.inner with
  | .bytes _ => true
  | _ => false

/-- Apply a sequence of `poll_read` calls with the given buffer sizes,
threading the body state; `none` if any poll hits a missing match arm. -/
def Body.pollMany : Body → List Nat → Option Body
  | b, [] => some b
  | b, n :: rest =>
    match Body.poll_read b n with
    | none => none
    | some (_, b') => Body.pollMany b' rest

end Isahc

namespace Isahc

/-- Polling never leaves the `AsyncRead` variant and never changes the
stored length option: only the wrapped source advances. -/
theorem pollMany_asyncRead (sizes : List Nat) :
    ∀ (s : AsyncSource) (l : Option Nat) (b' : Body),
      Body.pollMany ⟨.asyncRead s l⟩ sizes = some b' →
      ∃ s', b' = ⟨.asyncRead s' l⟩ := by
  induction sizes with
  | nil =>
    intro s l b' h
    exact ⟨s, by simpa [Body.pollMany] using h.symm⟩
  | cons n rest ih =>
    intro s l b' h
    simp only [Body.pollMany, Body.poll_read] at h
    exact ih (s.poll n).2 l b' h

/-- Polling never leaves the `Bytes` variant and never changes the backing
buffer: only the cursor position advances. -/
theorem pollMany_bytes (sizes : List Nat) :
    ∀ (data : List Byte) (p : Nat) (b' : Body),
      Body.pollMany ⟨.bytes ⟨data, p⟩⟩ sizes = some b' →
      ∃ p', b' = ⟨.bytes ⟨data, p'⟩⟩ := by
  induction sizes with
  | nil =>
    intro data p b' h
    exact ⟨p, by simpa [Body.pollMany] using h.symm⟩
  | cons n rest ih =>
    intro data p b' h
    simp only [Body.pollMany, Body.poll_read, Cursor.read] at h
    exact ih data _ b' h

end Isahc

namespace Isahc

/-- C1: the claim says a Borrowed body reports `length() == Some(n)` for the
exact size `n` of the referenced region. In the source, the `match` inside
`Body::len` has arms only for `Empty`, `Bytes` and `AsyncRead`: a Borrowed
body falls through every arm (the `match` is non-exhaustive, a slip the
compiler rejects), so `len` has no defined result — modelled as `none` —
instead of the claimed `Some(3)` for a 3-byte slice. -/
theorem c1_borrowed_len_has_no_arm :
    Body.len (Body.ofByteSlice [0x41, 0x42, 0x43]) = none := rfl

/-- C2 counterexample: converting a byte slice (or a string slice) into a
body does NOT yield the Owned-buffer (`Inner::Bytes`) representation; the
`From` impls wrap the bytes in the Borrowed variant. -/
theorem c2_slice_not_owned :
    Body.isOwnedBytes (Body.ofByteSlice [0x41]) = false ∧
    Body.isOwnedBytes (Body.ofStr [0x41]) = false := by
  exact ⟨rfl, rfl⟩

/-- C2 amended: an owned string converts into the Owned-buffer
representation (its UTF-8 bytes moved into the owned buffer) with
`length() == Some(exact byte count)`; byte slices and string slices
instead convert into the Borrowed representation, wrapping the referenced
bytes in a cursor without copying (as does `From<Vec<u8>>` into Owned). -/
theorem c2_conversion_targets :
    (∀ s : List Byte,
      Body.ofString s = Body.bytes s ∧
      Body.isOwnedBytes (Body.ofString s) = true ∧
      Body.len (Body.ofString s) = some (some s.length)) ∧
    (∀ d : List Byte,
      Body.ofByteSlice d = Body.mk (Inner.borrowed (Cursor.mk d 0)) ∧
      Body.ofStr d = Body.mk (Inner.borrowed (Cursor.mk d 0)) ∧
      Body.ofVec d = Body.bytes d ∧
      Body.isOwnedBytes (Body.ofVec d) = true) := by
  exact ⟨fun s => ⟨rfl, rfl, rfl⟩, fun d => ⟨rfl, rfl, rfl, rfl⟩⟩

/-- C3: the claim's round-trip law (read to exhaustion, `reset()` returns
true, re-reading yields the same bytes) is stated for both Borrowed and
Owned bodies. For a Borrowed body both `poll_read` and `reset` fall
through every arm of their non-exhaustive `match` (no defined behaviour,
modelled `none`), so the law fails there; for an Owned body the law holds,
shown here on the concrete buffer [65, 66]: draining returns the bytes,
`reset` returns true restoring position 0, and re-reading returns the same
bytes again. -/
theorem c3_roundtrip_borrowed_vs_owned :
    Body.poll_read (Body.ofByteSlice [0, 255]) 16 = none ∧
    Body.reset (Body.ofByteSlice [0, 255]) = none ∧
    Body.read (Body.bytes [65, 66]) 16 8 =
      some (ReadPoll.ok [65, 66], Body.mk (Inner.bytes (Cursor.mk [65, 66] 2))) ∧
    Body.reset (Body.mk (Inner.bytes (Cursor.mk [65, 66] 2))) =
      some (true, Body.bytes [65, 66]) ∧
    Body.read (Body.bytes [65, 66]) 16 8 =
      some (ReadPoll.ok [65, 66], Body.mk (Inner.bytes (Cursor.mk [65, 66] 2))) := by
  refine ⟨rfl, rfl, by decide, by decide, by decide⟩

/-- C4: the scenario from the spec: `Body::bytes([0x41, 0x42, 0x43])` has
`len() == Some(3)`; a first blocking `text()` returns "ABC" leaving the
cursor at position 3; a second `text()` without reset returns ""; `reset`
returns true restoring the start; a third `text()` returns "ABC" again. -/
theorem c4_bytes_text_scenario :
    Body.len (Body.bytes [0x41, 0x42, 0x43]) = some (some 3) ∧
    Body.text (Body.bytes [0x41, 0x42, 0x43]) 16 8 8 =
      some (TextResult.ok "ABC", Body.mk (Inner.bytes (Cursor.mk [0x41, 0x42, 0x43] 3))) ∧
    Body.text (Body.mk (Inner.bytes (Cursor.mk [0x41, 0x42, 0x43] 3))) 16 8 8 =
      some (TextResult.ok "", Body.mk (Inner.bytes (Cursor.mk [0x41, 0x42, 0x43] 3))) ∧
    Body.reset (Body.mk (Inner.bytes (Cursor.mk [0x41, 0x42, 0x43] 3))) =
      some (true, Body.bytes [0x41, 0x42, 0x43]) ∧
    Body.text (Body.bytes [0x41, 0x42, 0x43]) 16 8 8 =
      some (TextResult.ok "ABC", Body.mk (Inner.bytes (Cursor.mk [0x41, 0x42, 0x43] 3))) := by
  refine ⟨rfl, by decide, by decide, by decide, by decide⟩

end Isahc

namespace Isahc

/-- C5: for a body in the Asynchronous representation, built by
`Body::reader` or `Body::reader_sized`, `reset` returns false and leaves
the body unchanged, after any sequence of polls consuming any number of
bytes. -/
theorem c5_async_reset_false (s : AsyncSource) (n : Nat) (b0 b' : Body)
    (sizes : List Nat)
    (h0 : b0 = Body.reader s ∨ b0 = Body.reader_sized s n)
    (h : Body.pollMany b0 sizes = some b') :
    Body.reset b' = some (false, b') := by
  rcases h0 with rfl | rfl
  · obtain ⟨s', rfl⟩ := pollMany_asyncRead sizes s none b' h
    rfl
  · obtain ⟨s', rfl⟩ := pollMany_asyncRead sizes s (some n) b' h
    rfl

/-- C5 witness: a streaming body that produced one byte still reports
`reset() == false`. -/
theorem c5_async_reset_false_witness :
    Body.reset (Body.mk (Inner.asyncRead (AsyncSource.mk []) none)) =
      some (false, Body.mk (Inner.asyncRead (AsyncSource.mk []) none)) :=
  c5_async_reset_false (AsyncSource.mk [SourceStep.chunk [1]]) 0
    (Body.reader (AsyncSource.mk [SourceStep.chunk [1]]))
    (Body.mk (Inner.asyncRead (AsyncSource.mk []) none)) [1] (Or.inl rfl) rfl

/-- C6: in every representation and at every point of the lifecycle,
`is_empty()` returns true exactly when `len()` returns `Some(0)` — the
source defines `is_empty` as `self.len() == Some(0)`. -/
theorem c6_is_empty_iff_len_zero (b : Body) :
    Body.is_empty b = some true ↔ Body.len b = some (some 0) := by
  rcases hl : Body.len b with _ | l
  · simp [Body.is_empty, hl]
  · simp [Body.is_empty, hl, beq_iff_eq]

/-- C7: a body built by `Body::reader_sized(source, n)` reports
`len() == Some(n)` before any read, and still after any sequence of polls,
however many bytes the source actually produces: the declared length is
stored at construction and never recomputed. -/
theorem c7_sized_len_stable (s : AsyncSource) (n : Nat) (sizes : List Nat)
    (b' : Body)
    (h : Body.pollMany (Body.reader_sized s n) sizes = some b') :
    Body.len (Body.reader_sized s n) = some (some n) ∧
    Body.len b' = some (some n) := by
  obtain ⟨s', rfl⟩ := pollMany_asyncRead sizes s (some n) b' h
  exact ⟨rfl, rfl⟩

/-- C7 witness: a sized streaming body declared at 42 bytes whose source
produced a single byte and then end-of-data still reports length 42. -/
theorem c7_sized_len_stable_witness :
    Body.len (Body.reader_sized (AsyncSource.mk [SourceStep.chunk [9]]) 42) =
      some (some 42) ∧
    Body.len (Body.mk (Inner.asyncRead (AsyncSource.mk []) (some 42))) =
      some (some 42) :=
  c7_sized_len_stable (AsyncSource.mk [SourceStep.chunk [9]]) 42 [8, 8]
    (Body.mk (Inner.asyncRead (AsyncSource.mk []) (some 42))) rfl

/-- C8: the blocking read entry point (`impl Read for Body`) returns
exactly the result of driving the asynchronous read contract
(`poll_read`) to completion with the synchronous-execution bridge: the
two consumption models agree on every body, buffer size and fuel. -/
theorem c8_blocking_read_drives_async (bufLen : Nat) :
    ∀ (fuel : Nat) (b : Body),
      Body.read b bufLen fuel = driveAsyncRead bufLen fuel b := by
  intro fuel
  induction fuel with
  | zero => intro b; rfl
  | succ k ih =>
    intro b
    show Join.join bufLen (k + 1) b = driveAsyncRead bufLen (k + 1) b
    rcases h : Body.poll_read b bufLen with _ | ⟨rp, b'⟩
    · simp only [Join.join, driveAsyncRead, h]
    · cases rp with
      | pending =>
        simp only [Join.join, driveAsyncRead, h]
        exact ih b'
      | ok bs => simp only [Join.join, driveAsyncRead, h]
      | ioError => simp only [Join.join, driveAsyncRead, h]

/-- C9: the debug rendering is a pure function of `len()` alone — it prints
the known length in parentheses when `len()` is `Some(n)`, the placeholder
when `len()` is `None`, and it depends only on the reported length (so it
never reads body bytes); as a pure function of the body it mutates no
state. -/
theorem c9_debug_renders_len_only :
    (∀ (b : Body) (n : Nat), Body.len b = some (some n) →
      Body.debugFmt b = some ("Body(" ++ toString n ++ ")")) ∧
    (∀ b : Body, Body.len b = some none →
      Body.debugFmt b = some "Body(?)") ∧
    (∀ b₁ b₂ : Body, Body.len b₁ = Body.len b₂ →
      Body.debugFmt b₁ = Body.debugFmt b₂) := by
  refine ⟨fun b n h => ?_, fun b h => ?_, fun b₁ b₂ h => ?_⟩
  · simp [Body.debugFmt, h]
  · simp [Body.debugFmt, h]
  · simp [Body.debugFmt, h]

/-- C9 witness: a two-byte in-memory body renders as "Body(2)". -/
theorem c9_debug_renders_len_only_witness :
    Body.debugFmt (Body.bytes [1, 2]) = some ("Body(" ++ toString 2 ++ ")") :=
  c9_debug_renders_len_only.1 (Body.bytes [1, 2]) 2 rfl

/-- C10: for an Owned-representation body, `len()` reports the total size
of the backing buffer, not the bytes remaining: after any sequence of
polls (including draining it), the length is the full buffer size, and a
drained non-empty body still reports `is_empty() == false`. -/
theorem c10_owned_len_counts_buffer (data : List Byte) (p : Nat)
    (sizes : List Nat) (b' : Body)
    (h : Body.pollMany (Body.mk (Inner.bytes (Cursor.mk data p))) sizes = some b') :
    Body.len b' = some (some data.length) ∧
    (data ≠ [] → Body.is_empty b' = some false) := by
  obtain ⟨p', rfl⟩ := pollMany_bytes sizes data p b' h
  refine ⟨rfl, fun hne => ?_⟩
  have hlen : data.length ≠ 0 := fun h0 => hne (List.length_eq_zero.mp h0)
  simp [Body.is_empty, Body.len, hlen]

/-- C10 witness: the one-byte Owned body drained by a 16-byte read still
reports length 1 and is not empty. -/
theorem c10_owned_len_counts_buffer_witness :
    Body.len (Body.mk (Inner.bytes (Cursor.mk [7] 1))) = some (some 1) ∧
    Body.is_empty (Body.mk (Inner.bytes (Cursor.mk [7] 1))) = some false := by
  have h := c10_owned_len_counts_buffer [7] 0 [16]
    (Body.mk (Inner.bytes (Cursor.mk [7] 1))) rfl
  exact ⟨h.1, h.2 (by decide)⟩

end Isahc
